import Mathlib

/-!
Shallow embedding of `src/webhook_listener.py` (quasiyoke/docker-webhook).

The webhook listener is a Flask application with two routes:
* `POST /`  (`index`, lines 46-101): origin allowlist check, HMAC signature
  verification, event classification, branch extraction, branch filtering,
  and sequential hook dispatch updating the globals
  `last_stdout` / `last_stderr`;
* `GET /logs` (`logs`, lines 104-106): renders the two globals.

Startup configuration (lines 16-43) supplies the GitHub network allowlist,
the shared secret, the branch whitelist and the discovered hook scripts.

External effects are passed in as explicit parameters:
* `hmacHex secret algo body` models `hmac.new(secret, msg=body,
  digestmod=algo).hexdigest()`; `none` models the exception raised for an
  unusable digest name;
* `run script branch` models `Popen([script, branch], ...)` +
  `communicate()`, giving the exit status and the captured output;
* `Request.json_ref` models the value `request.get_json()["ref"]` when that
  expression produces a string, and `none` when any step of it fails
  (JSON parse error, missing key, non-string value): line 83 sits inside a
  bare `try/except`, so all those failures are indistinguishable there.

An unhandled Python exception escaping the view function, and a view
function returning `None` (as `index` does after the hook loop), both make
Flask answer with a server error (500); `Outcome.exn` records them,
distinct from the deliberate `abort(403)` / `abort(400)` client errors.
-/

namespace Webhook

/-- One CIDR network range: base address and prefix length in bits.
IPv4 addresses are modelled as natural numbers below `2^32`. -/
structure IpNetwork where
  base : Nat
  bits : Nat
deriving DecidableEq, Repr

/-- `src_ip in ip_network(ip)` (line 56): the address matches the network
when both agree on the top `bits` bits. -/
def ipInNetwork (addr : Nat) (net : IpNetwork) : Bool :=
  addr / 2 ^ (32 - net.bits) == net.base / 2 ^ (32 - net.bits)

/-- Per-hook result of `Popen` + `communicate()` (lines 96-97):
exit status, captured stdout, captured stderr. -/
structure ExecResult where
  returncode : Int
  stdout : String
  stderr : String
deriving DecidableEq, Repr

/-- The module-level configuration loaded at startup (lines 16-36):
the GitHub hook allowlist, the discovered hook scripts, the shared
secret, and the branch whitelist. -/
structure WebhookConfig where
  github_whitelist : List IpNetwork
  webhook_secret : String
  branch_whitelist : List String
  scripts : List String

/-- One incoming HTTP request as the handler sees it: source address,
header mapping, raw body, and the outcome of `request.get_json()["ref"]`
(see the module comment). -/
structure Request where
  remote_addr : Nat
  headers : List (String × String)
  data : String
  json_ref : Option String

/-- The process-wide globals `last_stdout` / `last_stderr` (lines 42-43). -/
structure LogState where
  last_stdout : String
  last_stderr : String
deriving DecidableEq, Repr

/-- How one request terminates at the HTTP boundary: a returned body
(status 200), a Flask `abort(code)` client error, or an unhandled
error that Flask surfaces as a 500 (`exn` names the Python condition). -/
inductive Outcome where
  | ok (body : String)
  | httpAbort (code : Nat)
  | exn (e : String)
deriving DecidableEq, Repr

/-- The `logging.info` / `logging.error` calls of the handler, recorded
structurally. -/
inductive LogEntry where
  | ipNotWhitelisted
  | signatureMissing
  | parseFailed
  | branchNotWhitelisted (branch : String)
  | hookFailed (script : String) (returncode : Int) (stderr : String)
deriving DecidableEq, Repr

/-- `headers.get(k)`: first value bound to the key, if any. -/
def lookupHeader (hs : List (String × String)) (k : String) : Option String :=
  match hs with
  | [] => none
  | (k', v) :: rest => if k' == k then some v else lookupHeader rest k

/-- Python `str.split(sep, maxsplit)` on a character list: `budget` many
splits remain; once it reaches zero the rest is a single final piece. -/
def pySplitAux (sep : Char) : List Char → Nat → List Char → List (List Char)
  | [], _, acc => [acc.reverse]
  | c :: cs, 0, acc => [acc.reverse ++ c :: cs]
  | c :: cs, Nat.succ n, acc =>
    if c = sep then acc.reverse :: pySplitAux sep cs n []
    else pySplitAux sep cs (Nat.succ n) (c :: acc)

/-- Python `s.split(sep, maxsplit)` for a one-character separator. -/
def pySplit (sep : Char) (maxsp : Nat) (s : String) : List String :=
  (pySplitAux sep s.data maxsp []).map fun l => String.mk l

/-- Python `str.split(sep)` without a split bound, on a character list. -/
def pySplitAllAux (sep : Char) : List Char → List Char → List (List Char)
  | [], acc => [acc.reverse]
  | c :: cs, acc =>
    if c = sep then acc.reverse :: pySplitAllAux sep cs []
    else pySplitAllAux sep cs (c :: acc)

/-- Python `s.split(sep)` for a one-character separator: every occurrence
splits, and the result always has at least one piece (`''.split(sep)`
is `['']`). -/
def pySplitAll (sep : Char) (s : String) : List String :=
  (pySplitAllAux sep s.data []).map fun l => String.mk l

/-- Line 83, `ref.split("/", 2)[2]`: the piece after the second `/`.
Python raises `IndexError` when there are fewer than three pieces; the
surrounding `try/except` turns that into `none` here. -/
def parseBranch (ref : String) : Option String :=
  (pySplit '/' 2 ref).get? 2

/-- Lines 33-36: `getenv('WEBHOOK_BRANCH_LIST', '').split(',')`, replaced
by `['master']` when the resulting list is empty (Python truthiness). -/
def computeBranchWhitelist (env : Option String) : List String :=
  let branch_whitelist := pySplitAll ',' (env.getD "")
  if branch_whitelist.isEmpty then ["master"] else branch_whitelist

/-- `json.dumps({"msg": "pong"})` (line 75). -/
def pongBody : String := "\x7b\"msg\": \"pong\"\x7d"

/-- The hook loop, lines 95-101: run each script in order with the branch
as its argument, overwrite `last_stdout` / `last_stderr` with its captured
output, and log an error when it exits non-zero.  Besides the final log
state and the error-log entries, the trace of executed (script, result)
pairs is returned, recording which processes were spawned and in what
order. -/
def runScripts (run : String → String → ExecResult) (scripts : List String)
    (branch : String) (st : LogState) :
    LogState × List (String × ExecResult) × List LogEntry :=
  match scripts with
  | [] => (st, [], [])
  | s :: rest =>
    let proc := run s branch
    let st1 : LogState := ⟨proc.stdout, proc.stderr⟩
    let here : List LogEntry :=
      if proc.returncode ≠ 0 then [.hookFailed s proc.returncode proc.stderr] else []
    let r := runScripts run rest branch st1
    (r.1, (s, proc) :: r.2.1, here ++ r.2.2)

/-- Lines 94-101 followed by the implicit fall-through: after the hook
loop `index` returns `None`, which Flask rejects as an invalid response
(a 500 server error), recorded as `exn "ViewFunctionReturnedNone"`. -/
def dispatchStage (run : String → String → ExecResult) (cfg : WebhookConfig)
    (branch : String) (st : LogState) : Outcome × LogState × List LogEntry :=
  let r := runScripts run cfg.scripts branch st
  (Outcome.exn "ViewFunctionReturnedNone", r.1, r.2.2)

/-- Lines 72-101: everything after the signature check — ping handling,
event filtering, branch extraction, branch filtering, hook dispatch. -/
def handleEvent (run : String → String → ExecResult) (cfg : WebhookConfig)
    (req : Request) (st : LogState) : Outcome × LogState × List LogEntry :=
  let event := (lookupHeader req.headers "X-GitHub-Event").getD "ping"
  if event = "ping" then (Outcome.ok pongBody, st, [])
  else if event ≠ "push" then (Outcome.httpAbort 403, st, [])
  else
    match req.json_ref with
    | none => (Outcome.httpAbort 400, st, [LogEntry.parseFailed])
    | some r =>
      match parseBranch r with
      | none => (Outcome.httpAbort 400, st, [LogEntry.parseFailed])
      | some branch =>
        if branch ∈ cfg.branch_whitelist then dispatchStage run cfg branch st
        else (Outcome.httpAbort 403, st, [LogEntry.branchNotWhitelisted branch])

/-- The `POST /` handler `index` (lines 46-101).  Line 67 unpacks
`header_signature.split('=')` into exactly two names; any other shape
raises `ValueError`, which no handler catches, so Flask answers 500
(`exn "ValueError"`).  An unusable digest name makes `hmac.new` raise
likewise (`exn "UnsupportedDigestError"`). -/
def index (hmacHex : String → String → String → Option String)
    (run : String → String → ExecResult) (cfg : WebhookConfig)
    (req : Request) (st : LogState) : Outcome × LogState × List LogEntry :=
  if (cfg.github_whitelist.any fun net => ipInNetwork req.remote_addr net) = false then
    (Outcome.httpAbort 403, st, [LogEntry.ipNotWhitelisted])
  else
    match lookupHeader req.headers "X-Hub-Signature" with
    | none => (Outcome.httpAbort 403, st, [LogEntry.signatureMissing])
    | some header_signature =>
      match pySplitAll '=' header_signature with
      | [sha_name, sig] =>
        match hmacHex cfg.webhook_secret sha_name req.data with
        | none => (Outcome.exn "UnsupportedDigestError", st, [])
        | some digest =>
          if (digest == sig) = false then (Outcome.httpAbort 403, st, [])
          else handleEvent run cfg req st
      | _ => (Outcome.exn "ValueError", st, [])

/-- The `GET /logs` handler (lines 104-106). -/
def logsRoute (st : LogState) : String :=
  "stdout:\n\n" ++ st.last_stdout ++ "\n\nstderr:\n\n" ++ st.last_stderr

/-! ### Concrete instances used by witnesses and counterexamples -/

/-- A concrete stand-in for the keyed digest primitive: injective in the
secret, the algorithm name and the body, and producing no `=`. -/
def hmacToy : String → String → String → Option String :=
  fun secret algo body => some (algo ++ ":" ++ secret ++ ":" ++ body)

/-- A hook runner whose every invocation succeeds silently. -/
def runQuiet : String → String → ExecResult := fun _ _ => ⟨0, "", ""⟩

/-- A hook runner where hook `h1` exits non-zero and every other hook
exits zero, each with distinct captured output. -/
def runMixed : String → String → ExecResult := fun s _ =>
  if s = "h1" then ⟨1, "out1", "err1"⟩ else ⟨0, "out2", "err2"⟩

/-- A configuration trusting every IPv4 address (`0.0.0.0/0`),
with fixed secret, branch whitelist and two hooks. -/
def cfgAll : WebhookConfig := ⟨[⟨0, 0⟩], "secret", ["master"], ["h1", "h2"]⟩

/-- The empty log state the process starts with (lines 42-43). -/
def emptyLog : LogState := ⟨"", ""⟩

/-- A fully valid push request for `cfgAll` / `hmacToy`: trusted origin,
matching signature over body `"body"`, push event, ref naming the
whitelisted branch `master`. -/
def reqPush : Request :=
  ⟨10, [("X-Hub-Signature", "sha1=sha1:secret:body"),
        ("X-GitHub-Event", "push")], "body", some "refs/heads/master"⟩

/-! ### Interleaving model of the shared log globals

`last_stdout` and `last_stderr` are module-level globals with no lock.
Under a concurrently serving WSGI boundary, the tuple assignment of
line 97 executes as one store to `last_stdout` followed by one store to
`last_stderr`, and the expression of line 106 executes as one load of
`last_stdout` followed by one load of `last_stderr`; a thread switch can
fall between the two halves of either pair.  A schedule is one
interleaving of such atomic accesses; running it yields the final state
and the values the loads observed, in order. -/

/-- One atomic access to the log globals. -/
inductive LogOp where
  | writeOut (v : String)
  | writeErr (v : String)
  | readOut
  | readErr
deriving DecidableEq, Repr

/-- Execute a schedule against the shared state, collecting what the
loads observe. -/
def runOps : List LogOp → LogState → LogState × List String
  | [], st => (st, [])
  | LogOp.writeOut v :: ops, st => runOps ops ⟨v, st.last_stderr⟩
  | LogOp.writeErr v :: ops, st => runOps ops ⟨st.last_stdout, v⟩
  | LogOp.readOut :: ops, st =>
    let r := runOps ops st
    (r.1, st.last_stdout :: r.2)
  | LogOp.readErr :: ops, st =>
    let r := runOps ops st
    (r.1, st.last_stderr :: r.2)

/-- The store sequence one dispatch cycle (the hook loop, lines 95-97)
issues: for each hook in order, its stdout store then its stderr
store. -/
def dispatchWriteOps (run : String → String → ExecResult)
    (scripts : List String) (branch : String) : List LogOp :=
  (scripts.map fun s =>
    [LogOp.writeOut (run s branch).stdout, LogOp.writeErr (run s branch).stderr]).flatten

/-- The load sequence of one `GET /logs` request (line 106). -/
def logsReadOps : List LogOp := [LogOp.readOut, LogOp.readErr]

/-- Whether an access is one of the writer's stores. -/
def isWriteOp : LogOp → Bool
  | LogOp.writeOut _ => true
  | LogOp.writeErr _ => true
  | LogOp.readOut => false
  | LogOp.readErr => false

/-- The store sequence of a dispatch writing the output pairs `pairs`,
one `writeOut`/`writeErr` pair per hook. -/
def pairWriteOps (pairs : List (String × String)) : List LogOp :=
  (pairs.map fun p => [LogOp.writeOut p.1, LogOp.writeErr p.2]).flatten

/-- A dispatch cycle whose single hook captured `("out1", "err1")`. -/
def runCycle1 : String → String → ExecResult := fun _ _ => ⟨0, "out1", "err1"⟩

/-- A dispatch cycle whose single hook captured `("out2", "err2")`. -/
def runCycle2 : String → String → ExecResult := fun _ _ => ⟨0, "out2", "err2"⟩

/-- A schedule interleaving two dispatch cycles with one `/logs` read:
the read falls between cycle 2's stdout store and stderr store. -/
def tornSchedule : List LogOp :=
  [LogOp.writeOut "out1", LogOp.writeErr "err1", LogOp.writeOut "out2",
   LogOp.readOut, LogOp.readErr, LogOp.writeErr "err2"]

end Webhook

namespace Webhook

/-! ### Facts about the Python `split` embeddings -/

theorem pySplitAux_zero (sep : Char) (cs acc : List Char) :
    pySplitAux sep cs 0 acc = [acc.reverse ++ cs] := by
  cases cs <;> simp [pySplitAux]

theorem pySplitAux_no_sep_cons (sep : Char) (a : List Char) (rest acc : List Char)
    (n : Nat) (ha : sep ∉ a) :
    pySplitAux sep (a ++ sep :: rest) (n + 1) acc
      = (acc.reverse ++ a) :: pySplitAux sep rest n [] := by
  induction a generalizing acc with
  | nil => simp [pySplitAux]
  | cons c cs ih =>
    have hc : ¬c = sep := fun h => ha (h ▸ List.mem_cons_self c cs)
    have ha' : sep ∉ cs := fun h => ha (List.mem_cons_of_mem c h)
    show pySplitAux sep (c :: (cs ++ sep :: rest)) (n + 1) acc = _
    have h1 : pySplitAux sep (c :: (cs ++ sep :: rest)) (n + 1) acc
        = pySplitAux sep (cs ++ sep :: rest) (n + 1) (c :: acc) := by
      simp [pySplitAux, if_neg hc]
    rw [h1, ih (c :: acc) ha']
    simp

/-- `s.split("/", 2)` on a string with (at least) two slashes whose first
two slash-free segments are `a` and `b`: the pieces are `a`, `b` and the
whole remainder `c`, however many slashes `c` itself contains. -/
theorem pySplit_two_slashes (a b c : List Char) (ha : '/' ∉ a) (hb : '/' ∉ b) :
    pySplitAux '/' (a ++ '/' :: (b ++ '/' :: c)) 2 [] = [a, b, c] := by
  rw [show (2 : Nat) = 1 + 1 from rfl, pySplitAux_no_sep_cons '/' a _ [] 1 ha,
    show (1 : Nat) = 0 + 1 from rfl, pySplitAux_no_sep_cons '/' b _ [] 0 hb,
    pySplitAux_zero]
  simp

/-- Branch extraction on a ref of shape `<a>/<b>/<c>` with `a`, `b`
slash-free: the branch is the full third segment `c`. -/
theorem parseBranch_append (a b c : String) (ha : '/' ∉ a.data) (hb : '/' ∉ b.data) :
    parseBranch (a ++ "/" ++ b ++ "/" ++ c) = some c := by
  unfold parseBranch pySplit
  have hd : (a ++ "/" ++ b ++ "/" ++ c).data
      = a.data ++ '/' :: (b.data ++ '/' :: c.data) := by
    simp [String.data_append]
  rw [hd, pySplit_two_slashes a.data b.data c.data ha hb]
  rfl

/-! ### Facts about the hook loop and the interleaving model -/

theorem runScripts_trace (run : String → String → ExecResult) (branch : String) :
    ∀ (scripts : List String) (st : LogState),
      (runScripts run scripts branch st).2.1
        = scripts.map fun s => (s, run s branch) := by
  intro scripts
  induction scripts with
  | nil => intro st; rfl
  | cons s rest ih => intro st; simp [runScripts, ih]

theorem runScripts_final (run : String → String → ExecResult) (branch : String) :
    ∀ (scripts : List String) (st : LogState) (h : scripts ≠ []),
      (runScripts run scripts branch st).1 =
        ⟨(run (scripts.getLast h) branch).stdout,
         (run (scripts.getLast h) branch).stderr⟩ := by
  intro scripts
  induction scripts with
  | nil => intro st h; exact absurd rfl h
  | cons s rest ih =>
    intro st h
    cases rest with
    | nil => rfl
    | cons t rest2 =>
      have hstep : (runScripts run (s :: t :: rest2) branch st).1
          = (runScripts run (t :: rest2) branch
              ⟨(run s branch).stdout, (run s branch).stderr⟩).1 := rfl
      rw [hstep, ih _ (List.cons_ne_nil t rest2)]
      simp [List.getLast_cons]

theorem runOps_append (a b : List LogOp) (st : LogState) :
    runOps (a ++ b) st = ((runOps b (runOps a st).1).1,
      (runOps a st).2 ++ (runOps b (runOps a st).1).2) := by
  induction a generalizing st with
  | nil => simp [runOps]
  | cons op ops ih => cases op <;> simp [runOps, ih]

theorem runOps_pairWriteOps (ps : List (String × String)) :
    ∀ st : LogState, runOps (pairWriteOps ps) st =
      (⟨(ps.getLastD (st.last_stdout, st.last_stderr)).1,
        (ps.getLastD (st.last_stdout, st.last_stderr)).2⟩, []) := by
  induction ps with
  | nil => intro st; rfl
  | cons p ps ih =>
    intro st
    show runOps (pairWriteOps ps) ⟨p.1, p.2⟩ = _
    rw [ih ⟨p.1, p.2⟩, List.getLastD_cons]

theorem runOps_logsReadOps (st : LogState) :
    runOps logsReadOps st = (st, [st.last_stdout, st.last_stderr]) := rfl

/-- The store stream of a dispatch cycle drives the shared state to the
same final value the hook loop itself computes. -/
theorem runOps_writes_match_runScripts (run : String → String → ExecResult)
    (branch : String) :
    ∀ (scripts : List String) (st : LogState),
      (runOps (dispatchWriteOps run scripts branch) st).1
        = (runScripts run scripts branch st).1 := by
  intro scripts
  induction scripts with
  | nil => intro st; rfl
  | cons s rest ih =>
    intro st
    show (runOps (dispatchWriteOps run rest branch)
        ⟨(run s branch).stdout, (run s branch).stderr⟩).1 = _
    rw [ih]
    rfl

/-! ### Claims -/

/-- **C5.** A fully valid push request reaches the hook loop: with the
first hook exiting non-zero both hooks still run (the failure is
reported in the error log and the log state ends as the second hook's
output), but the view function then falls off the end of the loop and
returns `None`, which Flask surfaces as a 500 server error — not the
empty success response — and produces the same non-response when every
hook exits zero. -/
theorem accepted_push_gets_no_response :
    (index hmacToy runMixed cfgAll reqPush emptyLog).1 = Outcome.exn "ViewFunctionReturnedNone"
    ∧ (index hmacToy runMixed cfgAll reqPush emptyLog).2.1 = ⟨"out2", "err2"⟩
    ∧ (index hmacToy runMixed cfgAll reqPush emptyLog).2.2 = [LogEntry.hookFailed "h1" 1 "err1"]
    ∧ (index hmacToy runQuiet cfgAll reqPush emptyLog).1 = Outcome.exn "ViewFunctionReturnedNone"
    ∧ Outcome.exn "ViewFunctionReturnedNone" ≠ Outcome.ok "" := by
  decide

/-- **C2.** A `POST /` request whose source address lies in no network
range of the startup allowlist snapshot is answered `403` with the
origin log message, whatever its headers, body or signature: the handler
returns before any signature processing, leaving the log state
untouched. -/
theorem origin_check_rejects_untrusted
    (hmacHex : String → String → String → Option String)
    (run : String → String → ExecResult) (cfg : WebhookConfig)
    (req : Request) (st : LogState)
    (h : (cfg.github_whitelist.any fun net => ipInNetwork req.remote_addr net) = false) :
    index hmacHex run cfg req st =
      (Outcome.httpAbort 403, st, [LogEntry.ipNotWhitelisted]) := by
  simp [index, h]

/-- Witness for C2: address `10` does not lie in `192.0.2.0/24`, and the
request is answered `403` although it carries a signature header that
would verify. -/
theorem origin_check_rejects_untrusted_witness :
    ((WebhookConfig.mk [⟨0xC0000200, 24⟩] "secret" ["master"] ["h1"]).github_whitelist.any
        fun net => ipInNetwork 10 net) = false
    ∧ index hmacToy runQuiet (WebhookConfig.mk [⟨0xC0000200, 24⟩] "secret" ["master"] ["h1"])
        ⟨10, [("X-Hub-Signature", "sha1=sha1:secret:")], "", none⟩ emptyLog =
      (Outcome.httpAbort 403, emptyLog, [LogEntry.ipNotWhitelisted]) :=
  ⟨by decide,
   origin_check_rejects_untrusted hmacToy runQuiet _ _ _ (by decide)⟩

/-- **C4.** Startup branch-whitelist computation at the failing input:
with `WEBHOOK_BRANCH_LIST` unset (or set to the empty string),
`''.split(',')` is the non-empty list `['']`, so the `['master']`
fallback of line 36 never fires and the resulting whitelist rejects
every real branch — a push to `master` that passes every other check is
answered `403`, while the code's own comment says the list defaults
to just `master`. -/
theorem empty_branch_list_not_defaulted :
    computeBranchWhitelist none = [""]
    ∧ computeBranchWhitelist (some "") = [""]
    ∧ computeBranchWhitelist none ≠ ["master"]
    ∧ index hmacToy runQuiet
        ⟨[⟨0, 0⟩], "secret", computeBranchWhitelist none, ["h1"]⟩
        ⟨10, [("X-Hub-Signature", "sha1=sha1:secret:body"),
              ("X-GitHub-Event", "push")], "body", some "refs/heads/master"⟩
        emptyLog =
      (Outcome.httpAbort 403, emptyLog, [LogEntry.branchNotWhitelisted "master"]) := by
  decide

/-- **C1.** For a trusted-origin request whose signature header splits at
`=` into exactly an algorithm name and a submitted digest, and whose
named algorithm is usable, the handler answers `403` when the submitted
digest differs from the keyed digest of the raw body under the
configured secret, and proceeds past the signature check (to the event
stage, lines 72-101) when they are equal.  In particular, for one same
body, a digest computed with a wrong secret is rejected and the digest
computed with the configured secret is accepted, whenever the two
digests differ. -/
theorem hmac_mismatch_rejected_match_accepted
    (hmacHex : String → String → String → Option String)
    (run : String → String → ExecResult) (cfg : WebhookConfig)
    (req : Request) (st : LogState) (hdr algo sig d : String)
    (horig : (cfg.github_whitelist.any fun net => ipInNetwork req.remote_addr net) = true)
    (hhdr : lookupHeader req.headers "X-Hub-Signature" = some hdr)
    (hsplit : pySplitAll '=' hdr = [algo, sig])
    (hd : hmacHex cfg.webhook_secret algo req.data = some d) :
    (sig ≠ d → index hmacHex run cfg req st = (Outcome.httpAbort 403, st, []))
    ∧ (sig = d → index hmacHex run cfg req st = handleEvent run cfg req st) := by
  constructor
  · intro hne
    have hds : (d == sig) = false := beq_eq_false_iff_ne.mpr (Ne.symm hne)
    simp [index, horig, hhdr, hsplit, hd, hds]
  · intro heq
    have hds : (d == sig) = true := beq_iff_eq.mpr heq.symm
    simp [index, horig, hhdr, hsplit, hd, hds]

/-- Witness for C1: same body `"body"`, secret `"secret"`.  The header
carrying the digest made with the wrong secret `"evil"` is answered
`403`; the header carrying the digest made with the configured secret
proceeds to the event stage (here: the ping response). -/
theorem hmac_mismatch_rejected_match_accepted_witness :
    index hmacToy runQuiet cfgAll
        ⟨10, [("X-Hub-Signature", "sha1=sha1:evil:body")], "body", none⟩ emptyLog =
      (Outcome.httpAbort 403, emptyLog, [])
    ∧ index hmacToy runQuiet cfgAll
        ⟨10, [("X-Hub-Signature", "sha1=sha1:secret:body")], "body", none⟩ emptyLog =
      handleEvent runQuiet cfgAll
        ⟨10, [("X-Hub-Signature", "sha1=sha1:secret:body")], "body", none⟩ emptyLog :=
  ⟨(hmac_mismatch_rejected_match_accepted hmacToy runQuiet cfgAll
      ⟨10, [("X-Hub-Signature", "sha1=sha1:evil:body")], "body", none⟩ emptyLog
      "sha1=sha1:evil:body" "sha1" "sha1:evil:body" "sha1:secret:body"
      (by decide) (by decide) (by decide) (by decide)).1 (by decide),
   (hmac_mismatch_rejected_match_accepted hmacToy runQuiet cfgAll
      ⟨10, [("X-Hub-Signature", "sha1=sha1:secret:body")], "body", none⟩ emptyLog
      "sha1=sha1:secret:body" "sha1" "sha1:secret:body" "sha1:secret:body"
      (by decide) (by decide) (by decide) (by decide)).2 rfl⟩

/-- **C3 counterexample.** A trusted-origin request whose signature
header is the well-known-malformed value `"sha1"` (no `=` separator)
is not answered `403`: line 67's two-name unpacking of
`header_signature.split('=')` raises `ValueError`, which nothing
catches, so Flask answers with a server error. -/
theorem malformed_signature_header_crash_cex :
    index hmacToy runQuiet cfgAll
        ⟨10, [("X-Hub-Signature", "sha1")], "body", none⟩ emptyLog =
      (Outcome.exn "ValueError", emptyLog, [])
    ∧ Outcome.exn "ValueError" ≠ Outcome.httpAbort 403 := by
  decide

/-- **C3 amended.** For a trusted-origin request whose signature header
does not split at `=` into exactly two parts (separator absent, as in
`"sha1"`, or several separators, as in `"sha1=abc=def"`), the handler
raises an uncaught `ValueError` — surfaced by Flask as a 500 server
error, not as a `403` client rejection — leaving the log state
unchanged.  (A header `"<algo>="` does split into two parts; it follows
the mismatch path instead.) -/
theorem malformed_signature_header_value_error
    (hmacHex : String → String → String → Option String)
    (run : String → String → ExecResult) (cfg : WebhookConfig)
    (req : Request) (st : LogState) (hdr : String)
    (horig : (cfg.github_whitelist.any fun net => ipInNetwork req.remote_addr net) = true)
    (hhdr : lookupHeader req.headers "X-Hub-Signature" = some hdr)
    (hsplit : (pySplitAll '=' hdr).length ≠ 2) :
    index hmacHex run cfg req st = (Outcome.exn "ValueError", st, []) := by
  rcases hl : pySplitAll '=' hdr with _ | ⟨a, _ | ⟨b, _ | ⟨c, l⟩⟩⟩
  · simp [index, horig, hhdr, hl]
  · simp [index, horig, hhdr, hl]
  · exact absurd (by rw [hl]; rfl) hsplit
  · simp [index, horig, hhdr, hl]

/-- Witness for the amended C3: header `"sha1=abc=def"` splits into three
parts, and the request ends in the uncaught `ValueError`. -/
theorem malformed_signature_header_value_error_witness :
    index hmacToy runQuiet cfgAll
        ⟨10, [("X-Hub-Signature", "sha1=abc=def")], "body", none⟩ emptyLog =
      (Outcome.exn "ValueError", emptyLog, []) :=
  malformed_signature_header_value_error hmacToy runQuiet cfgAll
    ⟨10, [("X-Hub-Signature", "sha1=abc=def")], "body", none⟩ emptyLog
    "sha1=abc=def" (by decide) (by decide) (by decide)

/-- **C10.** Frame property of `index`: either the log state comes back
unchanged, or the request reached the hook-execution loop (whose outcome
is always the fall-through `None` return).  Every rejection — origin,
missing signature, malformed signature, digest error, mismatch,
unsupported event, malformed payload, disallowed branch — and the ping
response leave `last_stdout` / `last_stderr` exactly as they were. -/
theorem rejected_request_preserves_log
    (hmacHex : String → String → String → Option String)
    (run : String → String → ExecResult) (cfg : WebhookConfig)
    (req : Request) (st : LogState) :
    (index hmacHex run cfg req st).2.1 = st
    ∨ (index hmacHex run cfg req st).1 = Outcome.exn "ViewFunctionReturnedNone" := by
  unfold index handleEvent dispatchStage
  dsimp only
  repeat' split
  all_goals dsimp only
  all_goals first | exact Or.inl rfl | exact Or.inr rfl

/-- **C6.** For an authenticated push event: when the ref has the shape
`<namespace>/<kind>/<branch>` with slash-free first two segments, the
extracted branch is everything after the second `/` — a branch may
itself contain `/` — and the request proceeds to the branch filter on
exactly that branch; when the JSON/ref extraction fails (no string ref
available, or a ref with fewer than two separators), the request is
answered `400` with the parse-failure log message, never a crash. -/
theorem push_ref_branch_extraction
    (run : String → String → ExecResult) (cfg : WebhookConfig)
    (req : Request) (st : LogState)
    (hev : lookupHeader req.headers "X-GitHub-Event" = some "push") :
    (∀ a b c : String, '/' ∉ a.data → '/' ∉ b.data →
        req.json_ref = some (a ++ "/" ++ b ++ "/" ++ c) →
        handleEvent run cfg req st =
          (if c ∈ cfg.branch_whitelist then dispatchStage run cfg c st
           else (Outcome.httpAbort 403, st, [LogEntry.branchNotWhitelisted c])))
    ∧ ((∀ r, req.json_ref = some r → parseBranch r = none) →
        handleEvent run cfg req st = (Outcome.httpAbort 400, st, [LogEntry.parseFailed])) := by
  have hpp : ¬(("push" : String) = "ping") := by decide
  constructor
  · intro a b c ha hb href
    simp [handleEvent, hev, hpp, href, parseBranch_append a b c ha hb]
  · intro hfail
    cases hjr : req.json_ref with
    | none => simp [handleEvent, hev, hpp, hjr]
    | some r => simp [handleEvent, hev, hpp, hjr, hfail r hjr]

/-- Witness for C6: ref `refs/heads/feature/x` extracts the slash-bearing
branch `feature/x` (here not whitelisted, hence `403`), while the
too-short ref `refs/heads` is answered `400`. -/
theorem push_ref_branch_extraction_witness :
    handleEvent runQuiet cfgAll
        ⟨10, [("X-GitHub-Event", "push")], "body", some "refs/heads/feature/x"⟩ emptyLog =
      (Outcome.httpAbort 403, emptyLog, [LogEntry.branchNotWhitelisted "feature/x"])
    ∧ handleEvent runQuiet cfgAll
        ⟨10, [("X-GitHub-Event", "push")], "body", some "refs/heads"⟩ emptyLog =
      (Outcome.httpAbort 400, emptyLog, [LogEntry.parseFailed]) := by
  constructor
  · rw [(push_ref_branch_extraction runQuiet cfgAll
      ⟨10, [("X-GitHub-Event", "push")], "body", some "refs/heads/feature/x"⟩ emptyLog
      (by decide)).1 "refs" "heads" "feature/x" (by decide) (by decide) (by decide)]
    decide
  · exact (push_ref_branch_extraction runQuiet cfgAll
      ⟨10, [("X-GitHub-Event", "push")], "body", some "refs/heads"⟩ emptyLog
      (by decide)).2 (fun r hr => by injection hr with h; subst h; decide)

/-- **C7.** Branch filtering is exact string membership: once a push
yields branch `b`, the request proceeds to dispatch exactly when `b` is
an element of the configured whitelist, and otherwise is answered `403`
with the branch log message. -/
theorem branch_filter_exact_membership
    (run : String → String → ExecResult) (cfg : WebhookConfig)
    (req : Request) (st : LogState) (r b : String)
    (hev : lookupHeader req.headers "X-GitHub-Event" = some "push")
    (href : req.json_ref = some r)
    (hbr : parseBranch r = some b) :
    (b ∈ cfg.branch_whitelist →
        handleEvent run cfg req st = dispatchStage run cfg b st)
    ∧ (b ∉ cfg.branch_whitelist →
        handleEvent run cfg req st =
          (Outcome.httpAbort 403, st, [LogEntry.branchNotWhitelisted b])) := by
  have hpp : ¬(("push" : String) = "ping") := by decide
  constructor <;> intro h <;> simp [handleEvent, hev, hpp, href, hbr, h]

/-- Witness for C7: a push with ref `refs/heads/release` proceeds to
dispatch under whitelist `{release, master}` and is answered `403`
under whitelist `{master}`. -/
theorem branch_filter_exact_membership_witness :
    handleEvent runQuiet ⟨[⟨0, 0⟩], "secret", ["release", "master"], ["h1"]⟩
        ⟨10, [("X-GitHub-Event", "push")], "body", some "refs/heads/release"⟩ emptyLog =
      dispatchStage runQuiet ⟨[⟨0, 0⟩], "secret", ["release", "master"], ["h1"]⟩
        "release" emptyLog
    ∧ handleEvent runQuiet ⟨[⟨0, 0⟩], "secret", ["master"], ["h1"]⟩
        ⟨10, [("X-GitHub-Event", "push")], "body", some "refs/heads/release"⟩ emptyLog =
      (Outcome.httpAbort 403, emptyLog, [LogEntry.branchNotWhitelisted "release"]) :=
  ⟨(branch_filter_exact_membership runQuiet ⟨[⟨0, 0⟩], "secret", ["release", "master"], ["h1"]⟩
      ⟨10, [("X-GitHub-Event", "push")], "body", some "refs/heads/release"⟩ emptyLog
      "refs/heads/release" "release" (by decide) (by decide) (by decide)).1 (by decide),
   (branch_filter_exact_membership runQuiet ⟨[⟨0, 0⟩], "secret", ["master"], ["h1"]⟩
      ⟨10, [("X-GitHub-Event", "push")], "body", some "refs/heads/release"⟩ emptyLog
      "refs/heads/release" "release" (by decide) (by decide) (by decide)).2 (by decide)⟩

/-- **C8.** One dispatch cycle runs every hook, sequentially and in
discovery order, with its captured result — independent of any earlier
hook's exit status — and each hook's output overwrites the log state,
so after a non-empty cycle the log holds exactly the last hook's
stdout/stderr. -/
theorem dispatch_runs_all_hooks_in_order
    (run : String → String → ExecResult) (scripts : List String)
    (branch : String) (st : LogState) :
    ((runScripts run scripts branch st).2.1
        = scripts.map fun s => (s, run s branch))
    ∧ (∀ h : scripts ≠ [],
        (runScripts run scripts branch st).1 =
          ⟨(run (scripts.getLast h) branch).stdout,
           (run (scripts.getLast h) branch).stderr⟩) :=
  ⟨runScripts_trace run branch scripts st,
   fun h => runScripts_final run branch scripts st h⟩

/-- Witness for C8: hooks `h1` (exit 1) and `h2` (exit 0) — both run, in
order, and the final log state is `h2`'s output only. -/
theorem dispatch_runs_all_hooks_in_order_witness :
    (runScripts runMixed ["h1", "h2"] "master" emptyLog).2.1 =
      [("h1", ⟨1, "out1", "err1"⟩), ("h2", ⟨0, "out2", "err2"⟩)]
    ∧ (runScripts runMixed ["h1", "h2"] "master" emptyLog).1 = ⟨"out2", "err2"⟩ := by
  have h := dispatch_runs_all_hooks_in_order runMixed ["h1", "h2"] "master" emptyLog
  exact ⟨by rw [h.1]; decide, by rw [h.2 (by decide)]; decide⟩

/-- **C9 counterexample.** The log globals are written by two separate
stores (line 97) and read by two separate loads (line 106), with no
lock anywhere in the program, so the claim fails: `tornSchedule` is an
interleaving of the stores of two complete dispatch cycles (first a
cycle capturing `("out1", "err1")`, then one capturing
`("out2", "err2")`, projected faithfully in program order) with one
`/logs` read, and the read observes `["out2", "err1"]` — the second
cycle's stdout paired with the first cycle's stderr. -/
theorem torn_log_read_cex :
    tornSchedule.filter isWriteOp =
      dispatchWriteOps runCycle1 ["h1"] "master"
        ++ dispatchWriteOps runCycle2 ["h1"] "master"
    ∧ tornSchedule.filter (fun op => !isWriteOp op) = logsReadOps
    ∧ (runOps tornSchedule emptyLog).2 = ["out2", "err1"]
    ∧ (runOps (dispatchWriteOps runCycle1 ["h1"] "master") emptyLog).1 = ⟨"out1", "err1"⟩
    ∧ (runOps (dispatchWriteOps runCycle2 ["h1"] "master") ⟨"out1", "err1"⟩).1
        = ⟨"out2", "err2"⟩ := by
  decide

/-- **C9 amended.** When the two loads of a `/logs` read are *not*
interleaved into a dispatch's store pairs — the read happens on a
pair boundary, after `k` complete hook-output writes and before the
rest — the observed stdout and stderr do come from one same write pair
(the `k`-th one, or the initial state when `k = 0`), for every sequence
of written pairs and every split point. -/
theorem serialized_log_read_consistent (pairs : List (String × String))
    (k : Nat) (st : LogState) :
    (runOps (pairWriteOps (pairs.take k) ++ (logsReadOps
        ++ pairWriteOps (pairs.drop k))) st).2 =
      [((pairs.take k).getLastD (st.last_stdout, st.last_stderr)).1,
       ((pairs.take k).getLastD (st.last_stdout, st.last_stderr)).2] := by
  rw [runOps_append, runOps_pairWriteOps, runOps_append, runOps_logsReadOps,
    runOps_pairWriteOps]
  rfl

end Webhook
